import Mathlib

set_option autoImplicit false

/-
Shallow embedding of the effect-orpc repository (oRPC / Effect integration layer).

Sources embedded:
  - src/src/tagged-error.ts        (tagged error factory, registry bridge)
  - src/src/effect-procedure.ts    (EffectDecoratedProcedure.errors)
  - src/src/effect-enhance-router.ts (enhanceEffectRouter, procedure case)
  - src/unnamed/part_003           (EffectBuilder: errors, effect, makeEffectORPC)

JavaScript objects used as string-keyed registries are modelled as association
lists in insertion order (the order Object.entries iterates); object spread and
property assignment are modelled by objSet / objMerge below.  Runtime values the
embedded code never inspects (payload data, causes, schemas) are modelled by the
opaque Value type.  Functions that can throw return Except String.
-/

namespace EffectOrpc

/-- Opaque JavaScript runtime value. The embedded code stores and compares these
but never inspects their structure, so a small inductive suffices. -/
inductive Value where
  | vnull
  | vbool (b : Bool)
  | vnum (n : Int)
  | vstr (s : String)
  | vfield (name : String) (v : Value)
  | vpair (a b : Value)
deriving DecidableEq, Repr

/-- Lookup of a property on a JavaScript object modelled as an association list. -/
def objGet {α : Type} (m : List (String × α)) (k : String) : Option α :=
  (m.find? (fun p => p.1 = k)).map (fun p => p.2)

/-- Property assignment on a JavaScript object: overwrites in place if the key is
present (keeping its position, as JS objects do), otherwise appends. -/
def objSet {α : Type} (m : List (String × α)) (k : String) (v : α) : List (String × α) :=
  if m.any (fun p => p.1 = k) then
    m.map (fun p => if p.1 = k then (k, v) else p)
  else
    m ++ [(k, v)]

/-- Object spread merge, right-biased, in JS enumeration order. -/
def objMerge {α : Type} (m1 m2 : List (String × α)) : List (String × α) :=
  m2.foldl (fun acc p => objSet acc p.1 p.2) m1

/-- Keys of an object, in enumeration order. -/
def objKeys {α : Type} (m : List (String × α)) : List String :=
  m.map (fun p => p.1)

/-! oRPC client library primitives.  These are modelled from the external
dependency @orpc/client (not part of this repository): isORPCErrorStatus,
fallbackORPCErrorStatus, fallbackORPCErrorMessage and the ORPCError constructor,
with the semantics the repository's own tests rely on (status 200 is rejected,
NOT_FOUND falls back to 404 / "Not Found", unknown codes fall back to 500 and
use the code itself as message). -/

/-- Legal RPC error statuses are those outside the 200-399 success/redirect
range (modelled from @orpc/client isORPCErrorStatus). -/
def isORPCErrorStatus (status : Int) : Bool :=
  decide (status < 200 ∨ 400 ≤ status)

/-- Protocol-standard status/message per known error code (modelled from the
common error definitions table of @orpc/client). -/
def commonORPCErrorDefs : List (String × Int × String) :=
  [ ("BAD_REQUEST", (400, "Bad Request"))
  , ("UNAUTHORIZED", (401, "Unauthorized"))
  , ("FORBIDDEN", (403, "Forbidden"))
  , ("NOT_FOUND", (404, "Not Found"))
  , ("METHOD_NOT_SUPPORTED", (405, "Method Not Supported"))
  , ("TIMEOUT", (408, "Request Timeout"))
  , ("CONFLICT", (409, "Conflict"))
  , ("PRECONDITION_FAILED", (412, "Precondition Failed"))
  , ("PAYLOAD_TOO_LARGE", (413, "Payload Too Large"))
  , ("UNSUPPORTED_MEDIA_TYPE", (415, "Unsupported Media Type"))
  , ("UNPROCESSABLE_CONTENT", (422, "Unprocessable Content"))
  , ("TOO_MANY_REQUESTS", (429, "Too Many Requests"))
  , ("CLIENT_CLOSED_REQUEST", (499, "Client Closed Request"))
  , ("INTERNAL_SERVER_ERROR", (500, "Internal Server Error"))
  , ("NOT_IMPLEMENTED", (501, "Not Implemented"))
  , ("BAD_GATEWAY", (502, "Bad Gateway"))
  , ("SERVICE_UNAVAILABLE", (503, "Service Unavailable"))
  , ("GATEWAY_TIMEOUT", (504, "Gateway Timeout")) ]

/-- Lookup in the common error definition table. -/
def commonDef (code : String) : Option (Int × String) :=
  (commonORPCErrorDefs.find? (fun p => p.1 = code)).map (fun p => p.2)

/-- Status fallback chain: supplied status, else the protocol default for the
code, else 500 (modelled from @orpc/client fallbackORPCErrorStatus). -/
def fallbackORPCErrorStatus (code : String) (status : Option Int) : Int :=
  status.getD (((commonDef code).map (fun p => p.1)).getD 500)

/-- Message fallback chain: supplied message if truthy (non-empty), else the
protocol default message for the code, else the code itself (modelled from
@orpc/client fallbackORPCErrorMessage, which uses JS || so an empty string
falls through). -/
def fallbackORPCErrorMessage (code : String) (message : Option String) : String :=
  if message.getD "" ≠ "" then message.getD ""
  else
    match commonDef code with
    | some d => d.2
    | none => code

/-- The RPC layer's plain error object (modelled from @orpc/client ORPCError). -/
structure ORPCError where
  code : String
  status : Int
  message : String
  data : Option Value
  defined : Bool
  cause : Option Value
deriving DecidableEq, Repr

/-- Options accepted by the ORPCError constructor. -/
structure ORPCErrorOptions where
  status : Option Int := none
  message : Option String := none
  data : Option Value := none
  defined : Option Bool := none
  cause : Option Value := none
deriving DecidableEq, Repr

/-- Field assembly performed by the ORPCError constructor after its status
check: status and message run through their fallback chains, defined defaults
to false. -/
def orpcErrorAssemble (code : String) (opts : ORPCErrorOptions) : ORPCError :=
  { code := code
  , status := fallbackORPCErrorStatus code opts.status
  , message := fallbackORPCErrorMessage code opts.message
  , data := opts.data
  , defined := opts.defined.getD false
  , cause := opts.cause }

/-- The ORPCError constructor (modelled from @orpc/client): throws if a status
is supplied that is not a legal error status, otherwise assembles the fields. -/
def mkORPCError (code : String) (opts : ORPCErrorOptions) : Except String ORPCError :=
  match opts.status with
  | some s =>
    if isORPCErrorStatus s then .ok (orpcErrorAssemble code opts)
    else .error "[ORPCError] Invalid error status code."
  | none => .ok (orpcErrorAssemble code opts)

/-! Tag to code derivation (src/src/tagged-error.ts, toConstantCase,
lines 133-138): two global regex replacements followed by toUpperCase.
Both patterns are modelled as character-window scans over the original
string; this is equivalent to the JS global replace because matches of
either pattern can never overlap (the second character of a lower-upper
pair is upper, the third character of an upper-upper-lower triple is
lower, so no position inside a match can start another match). -/

/-- ASCII lowercase letter test, the a-z character class of the regexes. -/
def isLowerAZ (c : Char) : Bool := 'a' ≤ c ∧ c ≤ 'z'

/-- ASCII uppercase letter test, the A-Z character class of the regexes. -/
def isUpperAZ (c : Char) : Bool := 'A' ≤ c ∧ c ≤ 'Z'

/-- First replacement: insert an underscore between every lowercase letter and
a following uppercase letter (regex ([a-z])([A-Z]) replaced by $1_$2, global). -/
def replaceLowerUpper : List Char → List Char
  | [] => []
  | [a] => [a]
  | a :: b :: rest =>
    if isLowerAZ a ∧ isUpperAZ b then a :: '_' :: replaceLowerUpper (b :: rest)
    else a :: replaceLowerUpper (b :: rest)

/-- Second replacement: insert an underscore between two uppercase letters when
the second is followed by a lowercase letter (regex ([A-Z])([A-Z][a-z])
replaced by $1_$2, global), splitting acronym runs before their last letter. -/
def replaceUpperRun : List Char → List Char
  | [] => []
  | [a] => [a]
  | [a, b] => [a, b]
  | a :: b :: c :: rest =>
    if isUpperAZ a ∧ isUpperAZ b ∧ isLowerAZ c then
      a :: '_' :: replaceUpperRun (b :: c :: rest)
    else a :: replaceUpperRun (b :: c :: rest)

/-- Converts a PascalCase or camelCase tag to CONSTANT_CASE
(src/src/tagged-error.ts toConstantCase): the two replacements above,
then uppercase every character. -/
def toConstantCase (s : String) : String :=
  String.mk ((replaceUpperRun (replaceLowerUpper s.toList)).map Char.toUpper)

/-! Tagged error factory (src/src/tagged-error.ts, ORPCTaggedError,
lines 274-382).  The two-stage factory ORPCTaggedError(schema?)(tag,
codeOrOptions?, defaultOptions?) produces a class; classes are modelled as
records of the data the factory closes over, instances as records of the
fields the constructor assigns. -/

/-- Second factory argument: either an explicit code string or a default
status/message options object (the factory discriminates with typeof
codeOrOptions === "string"). -/
inductive CodeOrOptions where
  | code (c : String)
  | options (status : Option Int) (message : Option String)
deriving DecidableEq, Repr

/-- A tagged error class: the data captured when the factory creates the
class. The code field is the static code (explicit code argument if the
second factory argument was a string, else toConstantCase of the tag). -/
structure TaggedErrorClass where
  schema : Option Value
  tag : String
  code : String
  defaultStatus : Option Int
  defaultMessage : Option String
deriving DecidableEq, Repr

/-- The factory body (src/src/tagged-error.ts lines 277-291): resolves the
code/options overloading and records the defaults. -/
def mkTaggedErrorClass (schema : Option Value) (tag : String)
    (codeOrOptions : Option CodeOrOptions) : TaggedErrorClass :=
  match codeOrOptions with
  | some (.code c) =>
    { schema := schema, tag := tag, code := c
    , defaultStatus := none, defaultMessage := none }
  | some (.options st msg) =>
    { schema := schema, tag := tag, code := toConstantCase tag
    , defaultStatus := st, defaultMessage := msg }
  | none =>
    { schema := schema, tag := tag, code := toConstantCase tag
    , defaultStatus := none, defaultMessage := none }

/-- The factory body when an explicit code and default options are both
given (overload 3 with its optional third argument). -/
def mkTaggedErrorClassWithDefaults (schema : Option Value) (tag : String)
    (code : String) (defaultStatus : Option Int) (defaultMessage : Option String) :
    TaggedErrorClass :=
  { schema := schema, tag := tag, code := code
  , defaultStatus := defaultStatus, defaultMessage := defaultMessage }

/-- Options accepted by a tagged error constructor
(ORPCTaggedErrorOptions).  An empty record models calling the constructor
with no arguments (resolveMaybeOptionalOptions of an empty rest list). -/
structure TaggedErrorOptions where
  data : Option Value := none
  message : Option String := none
  status : Option Int := none
  cause : Option Value := none
  defined : Option Bool := none
deriving DecidableEq, Repr

/-- A constructed tagged error instance: the fields the constructor passes to
the Data.TaggedError base (which spreads them onto the instance) plus the
embedded plain-error projection stored under the ORPCErrorSymbol key.
The instance has no runtime schema field: the factory declares schema only
as a static class field, so reading instance.schema yields undefined (the
repository's own test expects data: undefined in the projected registry
even for a class created with a schema). -/
structure TaggedErrorInstance where
  tag : String
  code : String
  status : Int
  message : String
  data : Option Value
  defined : Bool
  cause : Option Value
  projection : ORPCError
deriving DecidableEq, Repr

/-- Shared tail of the tagged error constructor (src/src/tagged-error.ts
lines 331-356) after the status check: applies the status and message
fallback chains, defaults the defined flag to true, and assembles the
instance fields together with the embedded ORPCError projection. -/
def constructAssemble (cls : TaggedErrorClass) (opts : TaggedErrorOptions)
    (status : Option Int) (inputMessage : Option String) :
    Except String TaggedErrorInstance :=
  let finalStatus := fallbackORPCErrorStatus cls.code status
  let finalMessage := fallbackORPCErrorMessage cls.code inputMessage
  let defined := opts.defined.getD true
  (mkORPCError cls.code
    { status := some finalStatus, message := some finalMessage
    , data := opts.data, defined := some defined, cause := opts.cause }).map
    (fun proj =>
      { tag := cls.tag, code := cls.code, status := finalStatus
      , message := finalMessage, data := opts.data, defined := defined
      , cause := opts.cause, projection := proj })

/-- The tagged error constructor proper: resolves status and message against
the factory defaults (JS nullish coalescing), performs the status check, then
runs the shared assembly tail above. -/
def construct (cls : TaggedErrorClass) (opts : TaggedErrorOptions) :
    Except String TaggedErrorInstance :=
  let status := opts.status <|> cls.defaultStatus
  let inputMessage := opts.message <|> cls.defaultMessage
  match status with
  | some s =>
    if isORPCErrorStatus s then constructAssemble cls opts (some s) inputMessage
    else .error "[ORPCTaggedError] Invalid error status code."
  | none => constructAssemble cls opts none inputMessage

/-- Converts a tagged error instance to its plain ORPCError projection
(toORPCError reads the instance's ORPCErrorSymbol field). -/
def toORPCError (inst : TaggedErrorInstance) : ORPCError :=
  inst.projection

/-! Effect error registries (src/src/tagged-error.ts lines 409-572). -/

/-- A plain error template, the RPC layer's ErrorMapItem: optional status,
message, and data schema. -/
structure ErrorMapItem where
  status : Option Int := none
  message : Option String := none
  dataSchema : Option Value := none
deriving DecidableEq, Repr

/-- A plain error registry (oRPC ErrorMap). -/
abbrev ErrorMap := List (String × ErrorMapItem)

/-- An entry of an effect error registry: either a plain template or a tagged
error class reference (EffectErrorMapItem). -/
inductive EffectErrorMapItem where
  | plain (item : ErrorMapItem)
  | tagged (cls : TaggedErrorClass)
deriving DecidableEq, Repr

/-- An effect error registry (EffectErrorMap). Entries present in the list
model keys whose value is defined; the source's skip of falsy entries is
therefore vacuous here. -/
abbrev EffectErrorMap := List (String × EffectErrorMapItem)

/-- Loop body of effectErrorMapToErrorMap (src/src/tagged-error.ts lines
542-559): iterate the entries in order; a plain template is stored under its
own key, a tagged class is instantiated with no arguments (which can throw)
and the materialized template is stored under the instance's code, not the
registry key; data is the instance's schema, which is undefined at runtime
(schema is a static field). -/
def effectErrorMapToErrorMapGo : EffectErrorMap → ErrorMap → Except String ErrorMap
  | [], result => .ok result
  | (code, item) :: rest, result =>
    match item with
    | .plain it => effectErrorMapToErrorMapGo rest (objSet result code it)
    | .tagged cls =>
      match construct cls {} with
      | .error e => .error e
      | .ok inst =>
        effectErrorMapToErrorMapGo rest
          (objSet result inst.code
            { status := some inst.status, message := some inst.message
            , dataSchema := none })

/-- Converts an effect error registry to a plain oRPC registry
(effectErrorMapToErrorMap, src/src/tagged-error.ts lines 533-562).
An undefined registry yields the empty registry. -/
def effectErrorMapToErrorMap (errorMap : Option EffectErrorMap) : Except String ErrorMap :=
  match errorMap with
  | none => .ok []
  | some entries => effectErrorMapToErrorMapGo entries []

/-- Result of calling an entry of the error constructor map: either a fresh
tagged error instance or a plain ORPCError. -/
inductive ConstructorResult where
  | taggedInst (inst : TaggedErrorInstance)
  | plainErr (e : ORPCError)
deriving DecidableEq, Repr

/-- One lookup-and-call through the proxy returned by
createEffectErrorConstructorMap (src/src/tagged-error.ts lines 489-527).
The proxy evaluates per accessed key: a tagged class entry yields a function
forwarding its arguments to the class constructor; any other entry (or a
missing one) yields an ORPCError factory whose defined flag is the truthiness
of the entry, whose status comes from the template only, and whose message
prefers the call's message over the template's.  The factory's option type
omits status and defined, and the factory body reads only message, data and
cause from the call's options. -/
def constructorMapLookup (errors : Option EffectErrorMap) (code : String)
    (opts : TaggedErrorOptions) : Except String ConstructorResult :=
  let target := errors.getD []
  match objGet target code with
  | some (.tagged cls) => (construct cls opts).map .taggedInst
  | some (.plain config) =>
    (mkORPCError code
      { status := config.status
      , message := opts.message <|> config.message
      , data := opts.data, defined := some true, cause := opts.cause }).map .plainErr
  | none =>
    (mkORPCError code
      { status := none, message := opts.message
      , data := opts.data, defined := some false, cause := opts.cause }).map .plainErr

/-! Execution adapter failure classification (src/unnamed/part_003,
EffectBuilder.effect, lines 491-524).  Cause is Effect's failure algebra;
Cause.match is its catamorphism, onSequential and onParallel receiving the
already-folded left and right results. -/

/-- The value carried by a typed failure, discriminated the way the adapter's
onFail branch does: a tagged error instance (isORPCTaggedError), an ORPCError
(instanceof), or anything else. -/
inductive FailValue where
  | taggedErr (inst : TaggedErrorInstance)
  | orpcErr (e : ORPCError)
  | other (v : Value)
deriving DecidableEq, Repr

/-- Effect's Cause tree for a failed exit. -/
inductive Cause where
  | fail (error : FailValue)
  | die (defect : Value)
  | interrupt (fiberId : Nat)
  | empty
  | sequential (left right : Cause)
  | parallel (left right : Cause)
deriving DecidableEq, Repr

/-- The defect/interrupt/empty branches all build
new ORPCError("INTERNAL_SERVER_ERROR", cause-only options); the options carry
no status, so the constructor's status check passes definitionally and the
result is the plain field assembly. -/
def internalServerError (cause : Option Value) : ORPCError :=
  orpcErrorAssemble "INTERNAL_SERVER_ERROR" { cause := cause }

/-- The Cause.match call of the adapter (src/unnamed/part_003 lines 492-523):
onDie wraps the defect, onFail discriminates tagged/plain/other, onInterrupt
and onEmpty wrap synthetic causes, onSequential and onParallel return the
folded left branch. -/
def causeToORPCError : Cause → ORPCError
  | .die defect => internalServerError (some defect)
  | .fail e =>
    match e with
    | .taggedErr inst => toORPCError inst
    | .orpcErr err => err
    | .other v => internalServerError (some v)
  | .interrupt fiberId =>
    internalServerError (some (.vstr (toString fiberId ++ " Interrupted")))
  | .empty => internalServerError (some (.vstr "Unknown error"))
  | .sequential left _ => causeToORPCError left
  | .parallel left _ => causeToORPCError left

/-- Terminal outcome of running the traced effect through the runtime. -/
inductive RunExit where
  | succeed (v : Value)
  | failure (c : Cause)
deriving DecidableEq, Repr

/-- Tail of the produced handler after runPromiseExit resolves
(src/unnamed/part_003 lines 491-526): a success exit resolves with the value,
a failure exit throws the classified cause. -/
def runHandlerExit (exit : RunExit) : Except ORPCError Value :=
  match exit with
  | .succeed v => .ok v
  | .failure c => .error (causeToORPCError c)

/-! Builder and procedure pipeline (src/unnamed/part_003 EffectBuilder,
src/src/effect-procedure.ts EffectDecoratedProcedure,
src/src/effect-enhance-router.ts enhanceEffectRouter).  Only the two error
registry fields and the registry captured by the handler closure are
modelled; the remaining definition fields (middlewares, schemas, meta,
route, runtime, span config) are copied unchanged by every operation the
claims mention and carry no error-registry behavior. -/

/-- The error-registry part of an EffectBuilder definition: the plain
errorMap consumed by the RPC layer and the effect-extended effectErrorMap. -/
structure EffectBuilder where
  errorMap : ErrorMap
  effectErrorMap : EffectErrorMap
deriving DecidableEq, Repr

/-- The error-registry part of an EffectDecoratedProcedure definition.
handlerErrors is the registry the finalized handler closure reads: the
handler created by EffectBuilder.effect is an arrow function whose this is
the builder, so it builds its constructor map from the builder's
effectErrorMap as it was when .effect() was called; spreading the definition
(as EffectDecoratedProcedure.errors does) copies the closure unchanged. -/
structure EffectDecoratedProcedure where
  errorMap : ErrorMap
  effectErrorMap : EffectErrorMap
  handlerErrors : EffectErrorMap
deriving DecidableEq, Repr

/-- Lifts a plain registry into an effect registry (every entry is a plain
template). Used where the source mixes the two shapes: makeEffectORPC sets
effectErrorMap to the wrapped builder's plain errorMap, and
enhanceEffectRouter spreads a procedure's plain errorMap into an effect
registry. -/
def liftErrorMap (m : ErrorMap) : EffectErrorMap :=
  m.map (fun p => (p.1, .plain p.2))

/-- makeEffectORPC (src/unnamed/part_003 lines 628-655): wraps a base oRPC
builder, reusing its definition and seeding effectErrorMap with the base
builder's plain errorMap. -/
def makeEffectORPC (baseErrorMap : ErrorMap) : EffectBuilder :=
  { errorMap := baseErrorMap, effectErrorMap := liftErrorMap baseErrorMap }

/-- EffectBuilder.errors (src/unnamed/part_003 lines 219-242): the plain map
is updated incrementally, merging the projection of only the new entries
into the old plain map (mergeErrorMap is an object spread), while the effect
map is spread-merged with the new entries. -/
def EffectBuilder.errors (b : EffectBuilder) (errors : EffectErrorMap) :
    Except String EffectBuilder :=
  (effectErrorMapToErrorMap (some errors)).map (fun projected =>
    { errorMap := objMerge b.errorMap projected
    , effectErrorMap := objMerge b.effectErrorMap errors })

/-- EffectBuilder.effect (src/unnamed/part_003 lines 441-529): finalizes the
builder into a procedure, spreading the builder definition; the handler
closure captures the builder's effectErrorMap (this of the arrow function is
the builder). -/
def EffectBuilder.effect (b : EffectBuilder) : EffectDecoratedProcedure :=
  { errorMap := b.errorMap, effectErrorMap := b.effectErrorMap
  , handlerErrors := b.effectErrorMap }

/-- EffectDecoratedProcedure.errors (src/src/effect-procedure.ts lines
169-190): spread-merges the effect registries and recomputes the plain map
by projecting the whole merged registry; the handler is copied unchanged by
the definition spread, so its captured registry does not change. -/
def EffectDecoratedProcedure.errors (p : EffectDecoratedProcedure)
    (errors : EffectErrorMap) : Except String EffectDecoratedProcedure :=
  let newEffectErrorMap := objMerge p.effectErrorMap errors
  (effectErrorMapToErrorMap (some newEffectErrorMap)).map (fun projected =>
    { errorMap := projected, effectErrorMap := newEffectErrorMap
    , handlerErrors := p.handlerErrors })

/-- enhanceEffectRouter, procedure case (src/src/effect-enhance-router.ts
lines 76-105): spread-merges the options' effect registry with the
procedure's plain errorMap and recomputes the plain projection of the
merged registry.  Middleware and route handling are pass-through and
omitted. -/
def enhanceEffectRouter (optionsErrorMap : EffectErrorMap)
    (p : EffectDecoratedProcedure) : Except String EffectDecoratedProcedure :=
  let effectErrorMap := objMerge optionsErrorMap (liftErrorMap p.errorMap)
  (effectErrorMapToErrorMap (some effectErrorMap)).map (fun projected =>
    { errorMap := projected, effectErrorMap := effectErrorMap
    , handlerErrors := p.handlerErrors })

/-- The errors constructor map the finalized handler hands to the handler
body on an invocation (src/unnamed/part_003 line 478): built per call from
the registry the handler closure captured. -/
def handlerConstructorLookup (p : EffectDecoratedProcedure) (code : String)
    (opts : TaggedErrorOptions) : Except String ConstructorResult :=
  constructorMapLookup (some p.handlerErrors) code opts

/-! Predicates used by the registry theorems. -/

/-- A status option is acceptable to the constructor's check when absent or a
legal error status. -/
def statusOkOpt (status : Option Int) : Bool :=
  match status with
  | none => true
  | some s => isORPCErrorStatus s

/-- A registry is well-keyed when every tagged class entry is registered under
its own static code. -/
def wellKeyed (m : EffectErrorMap) : Bool :=
  m.all (fun p =>
    match p.2 with
    | .tagged cls => cls.code = p.1
    | .plain _ => true)

/-- A registry is well-statused when every tagged class entry has an absent or
legal default status, so that its no-argument instantiation cannot throw. -/
def wellStatused (m : EffectErrorMap) : Bool :=
  m.all (fun p =>
    match p.2 with
    | .tagged cls => statusOkOpt cls.defaultStatus
    | .plain _ => true)

/-- Keys of a registry are pairwise distinct: the invariant JS objects ensure
by construction. -/
def keysNodup {α : Type} (m : List (String × α)) : Prop :=
  (objKeys m).Nodup

instance {α : Type} (m : List (String × α)) : Decidable (keysNodup m) := by
  unfold keysNodup; infer_instance

/-- Materialization of a tagged class entry by the projection: the plain
template captured from a no-argument instance.  Meaningful when the
instantiation succeeds; the error case never occurs under wellStatused. -/
def materializeTagged (cls : TaggedErrorClass) : ErrorMapItem :=
  match construct cls {} with
  | .ok inst => { status := some inst.status, message := some inst.message, dataSchema := none }
  | .error _ => { status := none, message := none, dataSchema := none }

/-- Entry-wise image of the projection on a well-keyed registry. -/
def projItem (item : EffectErrorMapItem) : ErrorMapItem :=
  match item with
  | .plain it => it
  | .tagged cls => materializeTagged cls

/-- The builder invariant claimed by the spec: the plain registry equals the
projection of the whole effect registry. -/
def builderInv (b : EffectBuilder) : Prop :=
  effectErrorMapToErrorMap (some b.effectErrorMap) = .ok b.errorMap

/-- The procedure-level version of the same invariant. -/
def procedureInv (p : EffectDecoratedProcedure) : Prop :=
  effectErrorMapToErrorMap (some p.effectErrorMap) = .ok p.errorMap

/-! Concrete values used by counterexamples and witnesses. -/

/-- A tagged error class registered in counterexamples under a key that
differs from its static code: explicit code BAR, tag BarThing. -/
def clsBarThing : TaggedErrorClass :=
  mkTaggedErrorClass none "BarThing" (some (.code "BAR"))

/-- A tagged error class with explicit code B_CODE, used to override a plain
entry registered under A_CODE. -/
def clsBThing : TaggedErrorClass :=
  mkTaggedErrorClass none "BThing" (some (.code "B_CODE"))

/-- A user-not-found tagged error class with explicit code NOT_FOUND. -/
def clsUserNotFound : TaggedErrorClass :=
  mkTaggedErrorClass none "UserNotFoundError" (some (.code "NOT_FOUND"))

/-- A tagged error class whose factory default status 300 is not a legal
error status. -/
def clsBadDefault : TaggedErrorClass :=
  mkTaggedErrorClassWithDefaults none "BadDefaultError" "BAD_DEFAULT" (some 300) none

/-- The data payload with a single userId field holding the string 123. -/
def userIdData : Value := .vfield "userId" (.vstr "123")

/-- The registry update applied to an already finalized procedure in the C2
scenario: one plain template under BAD_GATEWAY. -/
def updBadGateway : EffectErrorMap :=
  [("BAD_GATEWAY", .plain { message := some "BAD" })]

/-- The procedure obtained by finalizing the empty builder and then
registering updBadGateway on the finalized procedure.  Its effect registry
holds the new entry but its handler closure still captures the empty
builder-time registry. -/
def procAfterErrors : EffectDecoratedProcedure :=
  { errorMap := [("BAD_GATEWAY", { message := some "BAD" })]
  , effectErrorMap := [("BAD_GATEWAY", .plain { message := some "BAD" })]
  , handlerErrors := [] }

/-- A mixed registry used by witnesses: a tagged class under its own code and
a plain template. -/
def mixedRegistry : EffectErrorMap :=
  [ ("NOT_FOUND", .tagged clsUserNotFound)
  , ("BAD_REQUEST", .plain { status := some 400, message := some "Bad request" }) ]

/-- The builder after registering a plain template under A_CODE on the empty
builder. -/
def builderA : EffectBuilder :=
  { errorMap := [("A_CODE", { status := some 400 })]
  , effectErrorMap := [("A_CODE", .plain { status := some 400 })] }

/-- The builder after overriding the A_CODE entry of builderA with the tagged
class clsBThing whose code is B_CODE: its incrementally merged plain map keeps
a stale A_CODE entry while the effect registry's only entry projects to
B_CODE. -/
def builderAB : EffectBuilder :=
  { errorMap := [ ("A_CODE", { status := some 400 })
                , ("B_CODE", { status := some 500, message := some "B_CODE" }) ]
  , effectErrorMap := [("A_CODE", .tagged clsBThing)] }

/-- The builder after registering clsBThing under its own code B_CODE on
builderA (the well-keyed update used by witnesses). -/
def builderWellKeyedB : EffectBuilder :=
  { errorMap := [ ("A_CODE", { status := some 400 })
                , ("B_CODE", { status := some 500, message := some "B_CODE" }) ]
  , effectErrorMap := [ ("A_CODE", .plain { status := some 400 })
                      , ("B_CODE", .tagged clsBThing) ] }

/-- The procedure after registering clsBThing under its own code B_CODE on
procAfterErrors. -/
def procWellKeyedB : EffectDecoratedProcedure :=
  { errorMap := [ ("BAD_GATEWAY", { message := some "BAD" })
                , ("B_CODE", { status := some 500, message := some "B_CODE" }) ]
  , effectErrorMap := [ ("BAD_GATEWAY", .plain { message := some "BAD" })
                      , ("B_CODE", .tagged clsBThing) ]
  , handlerErrors := [] }

/-- The procedure obtained by enhancing procAfterErrors with an empty options
registry. -/
def procEnhanced : EffectDecoratedProcedure :=
  { errorMap := [("BAD_GATEWAY", { message := some "BAD" })]
  , effectErrorMap := [("BAD_GATEWAY", .plain { message := some "BAD" })]
  , handlerErrors := [] }

/-- A registry whose only entry is a plain template carrying the illegal
status 250.  Nothing upstream validates template statuses, so such a registry
is reachable. -/
def badStatusRegistry : EffectErrorMap :=
  [("TEAPOT", .plain { status := some 250 })]

/-- The instance produced by constructing clsUserNotFound with data userIdData
and no usable message: status and message fall back to the NOT_FOUND protocol
defaults. -/
def instUserNotFound : TaggedErrorInstance :=
  { tag := "UserNotFoundError", code := "NOT_FOUND", status := 404
  , message := "Not Found", data := some userIdData, defined := true
  , cause := none
  , projection := { code := "NOT_FOUND", status := 404, message := "Not Found"
                  , data := some userIdData, defined := true, cause := none } }

/-- Construction options carrying both a data payload and a non-empty custom
message. -/
def optsCustom : TaggedErrorOptions :=
  { data := some userIdData, message := some "User gone" }

/-- The instance produced by constructing clsUserNotFound with optsCustom. -/
def instUserCustom : TaggedErrorInstance :=
  { tag := "UserNotFoundError", code := "NOT_FOUND", status := 404
  , message := "User gone", data := some userIdData, defined := true
  , cause := none
  , projection := { code := "NOT_FOUND", status := 404, message := "User gone"
                  , data := some userIdData, defined := true, cause := none } }

/-! General lemmas about the fallback chains and the constructors. -/

theorem commonDef_status_legal (code : String) :
    isORPCErrorStatus (((commonDef code).map (fun p => p.1)).getD 500) = true := by
  unfold commonDef
  rcases h : commonORPCErrorDefs.find? (fun p => p.1 = code) with _ | d
  · rw [h]
    simp [isORPCErrorStatus]
  · rw [h]
    have hmem : d ∈ commonORPCErrorDefs := List.mem_of_find?_eq_some h
    have hall : ∀ p ∈ commonORPCErrorDefs, isORPCErrorStatus p.2.1 = true := by decide
    simpa using hall d hmem

theorem fallbackStatus_legal (code : String) (st : Option Int)
    (h : statusOkOpt st = true) :
    isORPCErrorStatus (fallbackORPCErrorStatus code st) = true := by
  cases st with
  | none => simpa [fallbackORPCErrorStatus] using commonDef_status_legal code
  | some s => simpa [fallbackORPCErrorStatus, statusOkOpt] using h

theorem fallbackMessage_of_ne (code : String) (s : String) (h : s ≠ "") :
    fallbackORPCErrorMessage code (some s) = s := by
  unfold fallbackORPCErrorMessage
  simp [h]

theorem fallbackMessage_idem (code : String) (m : Option String) :
    fallbackORPCErrorMessage code (some (fallbackORPCErrorMessage code m)) =
      fallbackORPCErrorMessage code m := by
  rcases eq_or_ne (fallbackORPCErrorMessage code m) "" with hr | hr
  · rw [hr]
    unfold fallbackORPCErrorMessage at hr ⊢
    simp only [Option.getD_some, ne_eq, not_true_eq_false, ite_false]
    split at hr
    · exact absurd hr (by assumption)
    · exact hr
  · exact fallbackMessage_of_ne code _ hr

theorem mkORPCError_some_legal (code : String) (opts : ORPCErrorOptions) (s : Int)
    (hs : opts.status = some s) (hl : isORPCErrorStatus s = true) :
    mkORPCError code opts = .ok (orpcErrorAssemble code opts) := by
  unfold mkORPCError
  rw [hs]
  simp [hl]

theorem construct_ok_fields (cls : TaggedErrorClass) (opts : TaggedErrorOptions)
    (inst : TaggedErrorInstance) (h : construct cls opts = .ok inst) :
    inst.tag = cls.tag ∧ inst.code = cls.code ∧
    inst.status = fallbackORPCErrorStatus cls.code (opts.status <|> cls.defaultStatus) ∧
    inst.message = fallbackORPCErrorMessage cls.code (opts.message <|> cls.defaultMessage) ∧
    inst.data = opts.data ∧ inst.defined = opts.defined.getD true ∧
    inst.cause = opts.cause ∧
    inst.projection = orpcErrorAssemble cls.code
      { status := some inst.status, message := some inst.message
      , data := opts.data, defined := some inst.defined, cause := opts.cause } := by
  unfold construct constructAssemble mkORPCError at h
  rcases hS : (opts.status <|> cls.defaultStatus) with _ | s <;> rw [hS] at h <;>
    dsimp only at h
  · split at h
    · simp only [Except.map] at h
      cases h
      simp [hS]
    · simp only [Except.map] at h
      cases h
  · split at h
    · split at h
      · simp only [Except.map] at h
        cases h
        simp [hS]
      · simp only [Except.map] at h
        cases h
    · cases h

theorem construct_eq_ok_exists (cls : TaggedErrorClass) (opts : TaggedErrorOptions)
    (h : statusOkOpt (opts.status <|> cls.defaultStatus) = true) :
    ∃ inst, construct cls opts = .ok inst := by
  unfold construct constructAssemble mkORPCError
  rcases hS : (opts.status <|> cls.defaultStatus) with _ | s <;> rw [hS] at h
  · simp [fallbackStatus_legal cls.code none rfl]
    exact ⟨_, rfl⟩
  · simp only [statusOkOpt] at h
    simp [h, fallbackStatus_legal cls.code (some s) h]
    exact ⟨_, rfl⟩

theorem construct_error_of_bad_status (cls : TaggedErrorClass)
    (opts : TaggedErrorOptions) (s : Int)
    (hS : (opts.status <|> cls.defaultStatus) = some s)
    (hbad : isORPCErrorStatus s = false) :
    construct cls opts = .error "[ORPCTaggedError] Invalid error status code." := by
  unfold construct
  rw [hS]
  simp [hbad]

/-! Lemmas about the JS object model. -/

theorem objGet_isSome_iff {α : Type} (m : List (String × α)) (k : String) :
    (objGet m k).isSome ↔ k ∈ objKeys m := by
  induction m with
  | nil => simp [objGet, objKeys]
  | cons p m ih =>
    by_cases h : p.1 = k
    · simp [objGet, objKeys, List.find?_cons, h]
    · have hk : ¬ (k = p.1) := fun hkk => h hkk.symm
      simp only [objGet, objKeys] at ih
      simp [objGet, objKeys, List.find?_cons, h, hk, ih]

theorem objSet_not_mem {α : Type} (m : List (String × α)) (k : String) (v : α)
    (h : k ∉ objKeys m) : objSet m k v = m ++ [(k, v)] := by
  unfold objSet
  have hany : m.any (fun p => p.1 = k) = false := by
    rw [List.any_eq_false]
    intro p hp
    simp only [decide_eq_true_eq]
    intro hpk
    exact h (List.mem_map.2 ⟨p, hp, hpk⟩)
  rw [hany]
  simp

theorem objKeys_objSet_mem {α : Type} {m : List (String × α)} {k : String}
    (v : α) (h : k ∈ objKeys m) : objKeys (objSet m k v) = objKeys m := by
  unfold objSet
  rw [if_pos]
  · unfold objKeys
    rw [List.map_map]
    congr 1
    funext p
    by_cases hp : p.1 = k <;> simp [hp]
  · simp only [objKeys, List.mem_map] at h
    obtain ⟨p, hp, hpk⟩ := h
    simp only [List.any_eq_true]
    exact ⟨p, hp, by simpa using hpk⟩

theorem objKeys_objSet_not_mem {α : Type} {m : List (String × α)} {k : String}
    (v : α) (h : k ∉ objKeys m) :
    objKeys (objSet m k v) = objKeys m ++ [k] := by
  rw [objSet_not_mem m k v h]
  simp [objKeys]

theorem keysNodup_objSet {α : Type} {m : List (String × α)} {k : String}
    (v : α) (hnd : keysNodup m) : keysNodup (objSet m k v) := by
  unfold keysNodup at hnd
  by_cases h : k ∈ objKeys m
  · unfold keysNodup
    rw [objKeys_objSet_mem v h]
    exact hnd
  · unfold keysNodup
    rw [objKeys_objSet_not_mem v h]
    simp [List.nodup_append, hnd, h, List.disjoint_singleton]

theorem mem_objSet {α : Type} {m : List (String × α)} {k : String} {v : α}
    {q : String × α} (h : q ∈ objSet m k v) : q ∈ m ∨ q = (k, v) := by
  unfold objSet at h
  split at h
  · rcases List.mem_map.1 h with ⟨p, hp, hpq⟩
    by_cases hk : p.1 = k
    · right
      simp only [hk, if_pos] at hpq
      exact hpq.symm
    · left
      simp only [hk, if_neg, ite_false] at hpq
      exact hpq ▸ hp
  · rcases List.mem_append.1 h with h1 | h1
    · left
      exact h1
    · right
      simpa using h1

theorem objMerge_nil {α : Type} (m : List (String × α)) : objMerge m [] = m := rfl

theorem objMerge_cons {α : Type} (m1 : List (String × α)) (p : String × α)
    (m2 : List (String × α)) :
    objMerge m1 (p :: m2) = objMerge (objSet m1 p.1 p.2) m2 := rfl

theorem mem_objMerge {α : Type} {m1 m2 : List (String × α)} {q : String × α}
    (h : q ∈ objMerge m1 m2) : q ∈ m1 ∨ q ∈ m2 := by
  induction m2 generalizing m1 with
  | nil => exact Or.inl h
  | cons p m2 ih =>
    rw [objMerge_cons] at h
    rcases ih h with h1 | h2
    · rcases mem_objSet h1 with h3 | h3
      · exact Or.inl h3
      · refine Or.inr (List.mem_cons.2 (Or.inl ?_))
        rw [h3]
    · exact Or.inr (List.mem_cons.2 (Or.inr h2))

theorem keysNodup_objMerge {α : Type} {m1 : List (String × α)}
    (m2 : List (String × α)) (hnd : keysNodup m1) : keysNodup (objMerge m1 m2) := by
  induction m2 generalizing m1 with
  | nil => exact hnd
  | cons p m2 ih =>
    rw [objMerge_cons]
    exact ih (keysNodup_objSet p.2 hnd)

theorem objSet_map {α β : Type} (f : α → β) (m : List (String × α)) (k : String)
    (v : α) :
    (objSet m k v).map (fun q => (q.1, f q.2)) =
      objSet (m.map (fun q => (q.1, f q.2))) k (f v) := by
  unfold objSet
  have hany : (m.map (fun q => (q.1, f q.2))).any (fun p => p.1 = k) =
      m.any (fun p => p.1 = k) := by
    induction m with
    | nil => rfl
    | cons a l ih => simp [List.any_cons, ih]
  rw [hany]
  split
  · rw [List.map_map, List.map_map]
    congr 1
    funext p
    by_cases hp : p.1 = k <;> simp [hp]
  · simp

theorem objMerge_map {α β : Type} (f : α → β) (m1 m2 : List (String × α)) :
    (objMerge m1 m2).map (fun q => (q.1, f q.2)) =
      objMerge (m1.map (fun q => (q.1, f q.2))) (m2.map (fun q => (q.1, f q.2))) := by
  induction m2 generalizing m1 with
  | nil => rfl
  | cons p m2 ih =>
    rw [objMerge_cons, ih, objSet_map]
    rfl

/-! Lemmas about the plain projection of effect registries. -/

theorem wellKeyed_cons {k : String} {item : EffectErrorMapItem} {m : EffectErrorMap}
    (h : wellKeyed ((k, item) :: m) = true) :
    (match item with
      | .tagged cls => cls.code = k
      | .plain _ => True) ∧ wellKeyed m = true := by
  unfold wellKeyed at h
  rw [List.all_cons, Bool.and_eq_true] at h
  refine ⟨?_, h.2⟩
  rcases item with it | cls
  · trivial
  · simpa using h.1

theorem wellStatused_cons {k : String} {item : EffectErrorMapItem} {m : EffectErrorMap}
    (h : wellStatused ((k, item) :: m) = true) :
    (match item with
      | .tagged cls => statusOkOpt cls.defaultStatus = true
      | .plain _ => True) ∧ wellStatused m = true := by
  unfold wellStatused at h
  rw [List.all_cons, Bool.and_eq_true] at h
  refine ⟨?_, h.2⟩
  rcases item with it | cls
  · trivial
  · simpa using h.1

theorem wellKeyed_of_forall {m : EffectErrorMap}
    (h : ∀ p ∈ m, ∀ cls, p.2 = .tagged cls → cls.code = p.1) :
    wellKeyed m = true := by
  unfold wellKeyed
  rw [List.all_eq_true]
  intro p hp
  rcases hq : p.2 with it | cls
  · simp [hq]
  · simp [hq, h p hp cls hq]

theorem forall_of_wellKeyed {m : EffectErrorMap} (h : wellKeyed m = true) :
    ∀ p ∈ m, ∀ cls, p.2 = .tagged cls → cls.code = p.1 := by
  unfold wellKeyed at h
  rw [List.all_eq_true] at h
  intro p hp cls hcls
  have := h p hp
  rw [hcls] at this
  simpa using this

theorem wellStatused_of_forall {m : EffectErrorMap}
    (h : ∀ p ∈ m, ∀ cls, p.2 = .tagged cls → statusOkOpt cls.defaultStatus = true) :
    wellStatused m = true := by
  unfold wellStatused
  rw [List.all_eq_true]
  intro p hp
  rcases hq : p.2 with it | cls
  · simp [hq]
  · simp [hq, h p hp cls hq]

theorem forall_of_wellStatused {m : EffectErrorMap} (h : wellStatused m = true) :
    ∀ p ∈ m, ∀ cls, p.2 = .tagged cls → statusOkOpt cls.defaultStatus = true := by
  unfold wellStatused at h
  rw [List.all_eq_true] at h
  intro p hp cls hcls
  have := h p hp
  rw [hcls] at this
  simpa using this

theorem construct_noargs_ok (cls : TaggedErrorClass)
    (h : statusOkOpt cls.defaultStatus = true) :
    ∃ inst, construct cls {} = .ok inst := by
  apply construct_eq_ok_exists
  simpa using h

theorem project_go_ok_of_ws (m : EffectErrorMap) (hws : wellStatused m = true) :
    ∀ acc, ∃ p, effectErrorMapToErrorMapGo m acc = .ok p := by
  induction m with
  | nil => exact fun acc => ⟨acc, rfl⟩
  | cons e rest ih =>
    intro acc
    obtain ⟨k, item⟩ := e
    obtain ⟨hhead, hrest⟩ := wellStatused_cons hws
    cases item with
    | plain it => exact ih hrest (objSet acc k it)
    | tagged cls =>
      obtain ⟨inst, hinst⟩ := construct_noargs_ok cls hhead
      simp only [effectErrorMapToErrorMapGo, hinst]
      exact ih hrest _

theorem project_go_eq (m : EffectErrorMap) (acc : ErrorMap)
    (hwk : wellKeyed m = true) (hws : wellStatused m = true)
    (hnd : (objKeys acc ++ objKeys m).Nodup) :
    effectErrorMapToErrorMapGo m acc =
      .ok (acc ++ m.map (fun p => (p.1, projItem p.2))) := by
  induction m generalizing acc with
  | nil => simp [effectErrorMapToErrorMapGo]
  | cons e rest ih =>
    obtain ⟨k, item⟩ := e
    obtain ⟨hwkh, hwkr⟩ := wellKeyed_cons hwk
    obtain ⟨hwsh, hwsr⟩ := wellStatused_cons hws
    have hknotacc : k ∉ objKeys acc := by
      have hdisj := (List.nodup_append.1 hnd).2.2
      intro hmem
      exact hdisj hmem (by simp [objKeys])
    have hnd2 : ((objKeys acc ++ [k]) ++ objKeys rest).Nodup := by
      simp only [objKeys, List.map_append] at hnd ⊢
      simpa [List.append_assoc] using hnd
    cases item with
    | plain it =>
      simp only [effectErrorMapToErrorMapGo]
      rw [objSet_not_mem acc k it hknotacc]
      have hnd3 : (objKeys (acc ++ [(k, it)]) ++ objKeys rest).Nodup := by
        simpa [objKeys] using hnd2
      rw [ih (acc ++ [(k, it)]) hwkr hwsr hnd3]
      simp [projItem]
    | tagged cls =>
      have hcode : cls.code = k := hwkh
      obtain ⟨inst, hinst⟩ := construct_noargs_ok cls hwsh
      have hfields := construct_ok_fields cls {} inst hinst
      have hinstcode : inst.code = k := hfields.2.1.trans hcode
      simp only [effectErrorMapToErrorMapGo, hinst]
      rw [hinstcode]
      rw [objSet_not_mem acc k _ hknotacc]
      have hnd3 : (objKeys (acc ++
          [(k, ({ status := some inst.status, message := some inst.message
                , dataSchema := none } : ErrorMapItem))]) ++ objKeys rest).Nodup := by
        simpa [objKeys] using hnd2
      rw [ih _ hwkr hwsr hnd3]
      have hmat : projItem (.tagged cls) =
          { status := some inst.status, message := some inst.message
          , dataSchema := none } := by
        simp [projItem, materializeTagged, hinst]
      simp only [List.map_cons]
      rw [hmat]
      simp

theorem project_eq_map (m : EffectErrorMap)
    (hwk : wellKeyed m = true) (hws : wellStatused m = true)
    (hnd : keysNodup m) :
    effectErrorMapToErrorMap (some m) =
      .ok (m.map (fun p => (p.1, projItem p.2))) := by
  unfold effectErrorMapToErrorMap
  have := project_go_eq m [] hwk hws (by simpa [objKeys, keysNodup] using hnd)
  simpa using this

theorem project_merge (m1 m2 : EffectErrorMap)
    (hwk1 : wellKeyed m1 = true) (hws1 : wellStatused m1 = true)
    (hnd1 : keysNodup m1)
    (hwk2 : wellKeyed m2 = true) (hws2 : wellStatused m2 = true) :
    effectErrorMapToErrorMap (some (objMerge m1 m2)) =
      .ok (objMerge (m1.map (fun p => (p.1, projItem p.2)))
        (m2.map (fun p => (p.1, projItem p.2)))) := by
  have hwkm : wellKeyed (objMerge m1 m2) = true := by
    apply wellKeyed_of_forall
    intro p hp cls hcls
    rcases mem_objMerge hp with h | h
    · exact forall_of_wellKeyed hwk1 p h cls hcls
    · exact forall_of_wellKeyed hwk2 p h cls hcls
  have hwsm : wellStatused (objMerge m1 m2) = true := by
    apply wellStatused_of_forall
    intro p hp cls hcls
    rcases mem_objMerge hp with h | h
    · exact forall_of_wellStatused hws1 p h cls hcls
    · exact forall_of_wellStatused hws2 p h cls hcls
  have hndm : keysNodup (objMerge m1 m2) := keysNodup_objMerge m2 hnd1
  rw [project_eq_map _ hwkm hwsm hndm]
  rw [objMerge_map]

/-! Claim theorems. -/

/-- C1 (counterexample): effectErrorMapToErrorMap does not preserve the key
set when a tagged error class is registered under a key differing from its
code: the registry with clsBarThing (code BAR) under key FOO projects to a
registry keyed by BAR, not FOO. -/
theorem C1_counterexample :
    effectErrorMapToErrorMap (some [("FOO", .tagged clsBarThing)]) =
      .ok [("BAR", { status := some 500, message := some "BAR", dataSchema := none })] ∧
    objKeys [("BAR", ({ status := some 500, message := some "BAR", dataSchema := none } : ErrorMapItem))] ≠
      objKeys [("FOO", EffectErrorMapItem.tagged clsBarThing)] :=
  ⟨rfl, by decide⟩

/-- C1 (amended): for every effect error registry with pairwise distinct keys
in which every tagged class entry is registered under its own code and has an
absent or legal default status, effectErrorMapToErrorMap returns a plain
registry with exactly the same key set and a present entry for every key. -/
theorem C1_amended_projection_totality (m : EffectErrorMap)
    (hwk : wellKeyed m = true) (hws : wellStatused m = true)
    (hnd : keysNodup m) :
    ∃ p, effectErrorMapToErrorMap (some m) = .ok p ∧
      objKeys p = objKeys m ∧
      ∀ k ∈ objKeys m, (objGet p k).isSome := by
  refine ⟨m.map (fun q => (q.1, projItem q.2)), project_eq_map m hwk hws hnd, ?_, ?_⟩
  · unfold objKeys
    rw [List.map_map]
    rfl
  · intro k hk
    rw [objGet_isSome_iff]
    unfold objKeys at hk ⊢
    rw [List.map_map]
    exact hk

/-- C1 (witness): the amended statement evaluated on the concrete mixed
registry holding a tagged class under its own code and a plain template. -/
theorem C1_amended_projection_totality_witness :
    ∃ p, effectErrorMapToErrorMap (some mixedRegistry) = .ok p ∧
      objKeys p = objKeys mixedRegistry ∧
      ∀ k ∈ objKeys mixedRegistry, (objGet p k).isSome :=
  C1_amended_projection_totality mixedRegistry (by decide) (by decide) (by decide)

/-- C2 (code evaluated at the failing input): registering a new BAD_GATEWAY
template with EffectDecoratedProcedure.errors on an already finalized
procedure stores the entry in the procedure's effect registry, yet on the
next invocation the handler's errors lookup for BAD_GATEWAY still goes
through the registry captured at definition time and therefore produces an
undefined-code factory error (defined false, fallback message) instead of a
registered one. -/
theorem C2_handler_ignores_procedure_registry :
    EffectDecoratedProcedure.errors (EffectBuilder.effect (makeEffectORPC []))
        updBadGateway = .ok procAfterErrors ∧
    objGet procAfterErrors.effectErrorMap "BAD_GATEWAY" =
      some (.plain { message := some "BAD" }) ∧
    handlerConstructorLookup procAfterErrors "BAD_GATEWAY" {} =
      .ok (.plainErr { code := "BAD_GATEWAY", status := 502, message := "Bad Gateway", data := none, defined := false, cause := none }) :=
  ⟨rfl, rfl, rfl⟩

/-- C4: the adapter's cause classification on a sequential or parallel
composition equals the classification of the left branch alone; the right
branch never determines the thrown error. -/
theorem C4_combined_cause_left_branch (l r : Cause) :
    causeToORPCError (.sequential l r) = causeToORPCError l ∧
    causeToORPCError (.parallel l r) = causeToORPCError l :=
  ⟨rfl, rfl⟩

/-- C6: toConstantCase is a total function (a Lean def) and maps
UserNotFoundError to USER_NOT_FOUND_ERROR, NotFound to NOT_FOUND, and keeps
acronym runs as units: XMLHttpRequestError to XML_HTTP_REQUEST_ERROR. -/
theorem C6_toConstantCase_examples :
    toConstantCase "UserNotFoundError" = "USER_NOT_FOUND_ERROR" ∧
    toConstantCase "NotFound" = "NOT_FOUND" ∧
    toConstantCase "XMLHttpRequestError" = "XML_HTTP_REQUEST_ERROR" := by
  refine ⟨?_, ?_, ?_⟩ <;> decide

/-- C3 (counterexample): the plain-map/effect-map synchronization invariant is
not preserved by EffectBuilder.errors: starting from the empty builder,
registering a plain template under A_CODE and then overriding it with the
tagged class clsBThing (code B_CODE) leaves a stale A_CODE entry in the
incrementally merged plain map, while recomputing the projection of the full
effect registry yields only B_CODE. -/
theorem C3_counterexample :
    EffectBuilder.errors (makeEffectORPC []) [("A_CODE", .plain { status := some 400 })] =
      .ok builderA ∧
    EffectBuilder.errors builderA [("A_CODE", .tagged clsBThing)] = .ok builderAB ∧
    builderInv builderA ∧
    ¬ builderInv builderAB := by
  refine ⟨rfl, rfl, rfl, ?_⟩
  intro h
  unfold builderInv at h
  rw [show effectErrorMapToErrorMap (some builderAB.effectErrorMap) =
    .ok [("B_CODE", { status := some 500, message := some "B_CODE", dataSchema := none })] from rfl] at h
  have h2 := Except.ok.inj h
  exact absurd h2 (by decide)

/-- C3 (amended): provided every tagged class entry is registered under its
own code (with distinct keys and defensible default statuses), the invariant
that the plain errorMap equals the projection of the whole effect registry is
preserved by makeEffectORPC, EffectBuilder.errors, EffectBuilder.effect,
EffectDecoratedProcedure.errors and enhanceEffectRouter. -/
theorem C3_amended_invariant_preservation
    (base : ErrorMap) (hbase : keysNodup base)
    (b : EffectBuilder) (u : EffectErrorMap)
    (hwkb : wellKeyed b.effectErrorMap = true)
    (hwsb : wellStatused b.effectErrorMap = true)
    (hndb : keysNodup b.effectErrorMap) (hinvb : builderInv b)
    (hwku : wellKeyed u = true) (hwsu : wellStatused u = true)
    (hndu : keysNodup u)
    (p : EffectDecoratedProcedure) (optErr : EffectErrorMap) :
    builderInv (makeEffectORPC base) ∧
    (∀ b2, EffectBuilder.errors b u = .ok b2 → builderInv b2) ∧
    procedureInv (EffectBuilder.effect b) ∧
    (∀ p2, EffectDecoratedProcedure.errors p u = .ok p2 → procedureInv p2) ∧
    (∀ p2, enhanceEffectRouter optErr p = .ok p2 → procedureInv p2) := by
  have hbmap : b.errorMap = b.effectErrorMap.map (fun q => (q.1, projItem q.2)) := by
    have h1 := project_eq_map b.effectErrorMap hwkb hwsb hndb
    unfold builderInv at hinvb
    rw [hinvb] at h1
    exact Except.ok.inj h1
  refine ⟨?_, ?_, ?_, ?_, ?_⟩
  · unfold builderInv makeEffectORPC
    have hwk : wellKeyed (liftErrorMap base) = true := by
      apply wellKeyed_of_forall
      intro q hq cls hcls
      rcases List.mem_map.1 hq with ⟨r, hr, hrq⟩
      rw [← hrq] at hcls
      cases hcls
    have hws : wellStatused (liftErrorMap base) = true := by
      apply wellStatused_of_forall
      intro q hq cls hcls
      rcases List.mem_map.1 hq with ⟨r, hr, hrq⟩
      rw [← hrq] at hcls
      cases hcls
    have hnd : keysNodup (liftErrorMap base) := by
      unfold keysNodup objKeys liftErrorMap
      rw [List.map_map]
      exact hbase
    rw [project_eq_map _ hwk hws hnd]
    unfold liftErrorMap
    rw [List.map_map]
    have hfun : ((fun q : String × EffectErrorMapItem => (q.1, projItem q.2)) ∘
        (fun q : String × ErrorMapItem => (q.1, EffectErrorMapItem.plain q.2))) =
        (fun q : String × ErrorMapItem => q) := by
      funext q
      simp [projItem]
    rw [hfun]
    simp
  · intro b2 h2
    unfold EffectBuilder.errors at h2
    rw [project_eq_map u hwku hwsu hndu] at h2
    simp only [Except.map] at h2
    cases h2
    unfold builderInv
    rw [project_merge b.effectErrorMap u hwkb hwsb hndb hwku hwsu]
    rw [hbmap]
  · exact hinvb
  · intro p2 h2
    unfold EffectDecoratedProcedure.errors at h2
    dsimp only at h2
    rcases hproj : effectErrorMapToErrorMap (some (objMerge p.effectErrorMap u)) with e | val
    · rw [hproj] at h2
      simp only [Except.map] at h2
      cases h2
    · rw [hproj] at h2
      simp only [Except.map] at h2
      cases h2
      exact hproj
  · intro p2 h2
    unfold enhanceEffectRouter at h2
    dsimp only at h2
    rcases hproj : effectErrorMapToErrorMap
        (some (objMerge optErr (liftErrorMap p.errorMap))) with e | val
    · rw [hproj] at h2
      simp only [Except.map] at h2
      cases h2
    · rw [hproj] at h2
      simp only [Except.map] at h2
      cases h2
      exact hproj

/-- C3 (witness): the amended preservation statement evaluated on concrete
registries: the empty base, builderA with a well-keyed B_CODE update, and
procAfterErrors. -/
theorem C3_amended_invariant_preservation_witness :
    builderInv (makeEffectORPC []) ∧ builderInv builderWellKeyedB ∧
    procedureInv (EffectBuilder.effect builderA) ∧
    procedureInv procWellKeyedB ∧ procedureInv procEnhanced := by
  obtain ⟨h1, h2, h3, h4, h5⟩ := C3_amended_invariant_preservation
    [] (by decide) builderA [("B_CODE", .tagged clsBThing)]
    (by decide) (by decide) (by decide) rfl
    (by decide) (by decide) (by decide) procAfterErrors []
  exact ⟨h1, h2 builderWellKeyedB rfl, h3, h4 procWellKeyedB rfl, h5 procEnhanced rfl⟩

/-- C5 (counterexample): looking up a key bound to a plain template whose
status is not a legal error status does not produce a plain error at all:
the factory invokes the ORPCError constructor with the template's status and
its status check throws instead of constructing a defined error. -/
theorem C5_counterexample :
    constructorMapLookup (some badStatusRegistry) "TEAPOT" {} =
      .error "[ORPCError] Invalid error status code." :=
  rfl

/-- C5 (amended): the constructor map is evaluated per accessed key (the
lookup result depends only on the entry at that key, so building the map
evaluates no entry and instantiates no tagged class); a tagged class entry
yields a function forwarding the call's options to the class constructor; a
plain template entry whose status is absent or a legal error status yields a
plain error with defined true whose status and message default to the
template's with the call's message and data taking precedence; a missing
entry yields a usable plain error with defined false.  The legality condition
is needed because a template with an illegal status makes the produced
function throw (C5 counterexample above). -/
theorem C5_constructor_map_lookup (errors : EffectErrorMap) (code : String)
    (opts : TaggedErrorOptions) :
    (∀ errors2 : EffectErrorMap, objGet errors code = objGet errors2 code →
      constructorMapLookup (some errors) code opts =
        constructorMapLookup (some errors2) code opts) ∧
    (∀ cls, objGet errors code = some (.tagged cls) →
      constructorMapLookup (some errors) code opts =
        (construct cls opts).map .taggedInst) ∧
    (∀ it : ErrorMapItem, objGet errors code = some (.plain it) →
      statusOkOpt it.status = true →
      constructorMapLookup (some errors) code opts = .ok (.plainErr
        { code := code, status := fallbackORPCErrorStatus code it.status,
          message := fallbackORPCErrorMessage code (opts.message <|> it.message),
          data := opts.data, defined := true, cause := opts.cause })) ∧
    (objGet errors code = none →
      constructorMapLookup (some errors) code opts = .ok (.plainErr
        { code := code, status := fallbackORPCErrorStatus code none,
          message := fallbackORPCErrorMessage code opts.message,
          data := opts.data, defined := false, cause := opts.cause })) := by
  refine ⟨?_, ?_, ?_, ?_⟩
  · intro errors2 h
    unfold constructorMapLookup
    simp only [Option.getD_some]
    rw [h]
  · intro cls h
    unfold constructorMapLookup
    simp only [Option.getD_some]
    rw [h]
  · intro it h hok
    unfold constructorMapLookup
    simp only [Option.getD_some]
    rw [h]
    cases hst : it.status with
    | none =>
      simp [mkORPCError, hst, orpcErrorAssemble]
      rfl
    | some s =>
      have hl : isORPCErrorStatus s = true := by
        rw [hst] at hok
        simpa [statusOkOpt] using hok
      simp [mkORPCError, hst, hl, orpcErrorAssemble]
      rfl
  · intro h
    unfold constructorMapLookup
    simp only [Option.getD_some]
    rw [h]
    simp [mkORPCError, orpcErrorAssemble]
    rfl

/-- C5 (witness): the three lookup behaviors evaluated on the concrete mixed
registry: the tagged NOT_FOUND entry forwards to the class constructor, the
plain BAD_REQUEST entry produces a defined error with the call's message over
the template's status, and the unregistered MISSING_CODE key produces a
usable undefined error. -/
theorem C5_constructor_map_lookup_witness :
    constructorMapLookup (some mixedRegistry) "NOT_FOUND"
        { data := some userIdData } =
      (construct clsUserNotFound { data := some userIdData }).map .taggedInst ∧
    constructorMapLookup (some mixedRegistry) "BAD_REQUEST"
        { message := some "Invalid input" } =
      .ok (.plainErr { code := "BAD_REQUEST", status := 400, message := "Invalid input", data := none, defined := true, cause := none }) ∧
    constructorMapLookup (some mixedRegistry) "MISSING_CODE" {} =
      .ok (.plainErr { code := "MISSING_CODE", status := 500, message := "MISSING_CODE", data := none, defined := false, cause := none }) := by
  refine ⟨?_, ?_, ?_⟩
  · exact (C5_constructor_map_lookup mixedRegistry "NOT_FOUND"
      { data := some userIdData }).2.1 clsUserNotFound rfl
  · exact (C5_constructor_map_lookup mixedRegistry "BAD_REQUEST"
      { message := some "Invalid input" }).2.2.1
      { status := some 400, message := some "Bad request" } rfl (by decide)
  · exact (C5_constructor_map_lookup mixedRegistry "MISSING_CODE" {}).2.2.2 rfl

/-- C7: when the handler body's computation fails with a tagged error
instance registered in the procedure's registry and carrying a data payload,
the produced handler rejects with the instance's embedded plain projection,
whose code equals the class's code and whose data equals the payload. -/
theorem C7_typed_failure_path (reg : EffectErrorMap) (k : String)
    (cls : TaggedErrorClass) (d : Value) (opts : TaggedErrorOptions)
    (inst : TaggedErrorInstance)
    (hreg : objGet reg k = some (.tagged cls))
    (hdata : opts.data = some d)
    (hinst : construct cls opts = .ok inst) :
    runHandlerExit (.failure (.fail (.taggedErr inst))) = .error inst.projection ∧
    inst.projection.code = cls.code ∧
    inst.projection.data = some d := by
  obtain ⟨-, -, -, -, -, -, -, hproj⟩ := construct_ok_fields cls opts inst hinst
  refine ⟨rfl, ?_, ?_⟩
  · rw [hproj]
    rfl
  · rw [hproj]
    simp [orpcErrorAssemble, hdata]

/-- C7 (witness): the typed-failure path evaluated at a user-not-found
instance carrying the userId 123 payload, registered in mixedRegistry. -/
theorem C7_typed_failure_path_witness :
    construct clsUserNotFound { data := some userIdData } = .ok instUserNotFound ∧
    runHandlerExit (.failure (.fail (.taggedErr instUserNotFound))) =
      .error instUserNotFound.projection ∧
    instUserNotFound.projection.code = clsUserNotFound.code ∧
    instUserNotFound.projection.data = some userIdData := by
  have h := C7_typed_failure_path mixedRegistry "NOT_FOUND" clsUserNotFound
    userIdData { data := some userIdData } instUserNotFound rfl rfl rfl
  exact ⟨rfl, h.1, h.2.1, h.2.2⟩

/-- C8: when the resolved status (instance override, else factory default) is
present and not a legal error status, the tagged error constructor throws the
usage error synchronously; when it is present and legal, construction
succeeds. -/
theorem C8_status_validation (cls : TaggedErrorClass) (opts : TaggedErrorOptions)
    (s : Int) (hS : (opts.status <|> cls.defaultStatus) = some s) :
    (isORPCErrorStatus s = false →
      construct cls opts = .error "[ORPCTaggedError] Invalid error status code.") ∧
    (isORPCErrorStatus s = true → ∃ inst, construct cls opts = .ok inst) := by
  constructor
  · intro hbad
    exact construct_error_of_bad_status cls opts s hS hbad
  · intro hl
    apply construct_eq_ok_exists
    rw [hS]
    simpa [statusOkOpt] using hl

/-- C8 (witness): status 250 is rejected synchronously and status 410 is
accepted, on the user-not-found class. -/
theorem C8_status_validation_witness :
    construct clsUserNotFound { status := some 250 } =
      .error "[ORPCTaggedError] Invalid error status code." ∧
    ∃ inst, construct clsUserNotFound { status := some 410 } = .ok inst :=
  ⟨(C8_status_validation clsUserNotFound { status := some 250 } 250 rfl).1 (by decide),
   (C8_status_validation clsUserNotFound { status := some 410 } 410 rfl).2 (by decide)⟩

/-- C9 (counterexample): reading .message back does not always return the
supplied message: constructing with the empty message falls back to the
protocol default (JS || treats the empty string as absent), so the instance's
message is Not Found rather than the supplied empty string. -/
theorem C9_counterexample :
    construct clsUserNotFound { data := some userIdData, message := some "" } =
      .ok instUserNotFound ∧
    instUserNotFound.message ≠ "" :=
  ⟨rfl, by decide⟩

/-- C9 (amended): for every successful construction the instance's data is
the supplied data and, when the supplied message is non-empty, the instance's
message is the supplied message; and the embedded projection's code, status,
data and message always equal the instance's own. -/
theorem C9_amended_round_trip (cls : TaggedErrorClass) (opts : TaggedErrorOptions)
    (inst : TaggedErrorInstance) (hinst : construct cls opts = .ok inst) :
    inst.data = opts.data ∧
    (∀ msg, opts.message = some msg → msg ≠ "" → inst.message = msg) ∧
    inst.projection.code = inst.code ∧
    inst.projection.status = inst.status ∧
    inst.projection.data = inst.data ∧
    inst.projection.message = inst.message := by
  obtain ⟨htag, hcode, hstatus, hmsg, hdata, hdef, hcause, hproj⟩ :=
    construct_ok_fields cls opts inst hinst
  refine ⟨hdata, ?_, ?_, ?_, ?_, ?_⟩
  · intro msg hm hne
    rw [hmsg, hm]
    exact fallbackMessage_of_ne cls.code msg hne
  · rw [hproj, hcode]
    rfl
  · rw [hproj, hstatus]
    simp [orpcErrorAssemble, fallbackORPCErrorStatus]
  · rw [hproj, hdata]
    simp [orpcErrorAssemble]
  · rw [hproj]
    show fallbackORPCErrorMessage cls.code (some inst.message) = inst.message
    rw [hmsg]
    exact fallbackMessage_idem cls.code _

/-- C9 (witness): the amended round trip evaluated at a construction carrying
the userId 123 payload and the non-empty message User gone. -/
theorem C9_amended_round_trip_witness :
    construct clsUserNotFound optsCustom = .ok instUserCustom ∧
    instUserCustom.data = optsCustom.data ∧
    instUserCustom.message = "User gone" ∧
    instUserCustom.projection.code = instUserCustom.code ∧
    instUserCustom.projection.status = instUserCustom.status ∧
    instUserCustom.projection.data = instUserCustom.data ∧
    instUserCustom.projection.message = instUserCustom.message := by
  have h := C9_amended_round_trip clsUserNotFound optsCustom instUserCustom rfl
  exact ⟨rfl, h.1, h.2.1 "User gone" rfl (by decide), h.2.2.1, h.2.2.2.1,
    h.2.2.2.2.1, h.2.2.2.2.2⟩

/-- C10 (counterexample): a factory-created class can throw on no-argument
construction: clsBadDefault carries the illegal factory default status 300,
so new with no arguments throws, and projecting a registry that contains it
fails at that tagged entry. -/
theorem C10_counterexample :
    construct clsBadDefault {} =
      .error "[ORPCTaggedError] Invalid error status code." ∧
    effectErrorMapToErrorMap (some [("BAD_DEFAULT", .tagged clsBadDefault)]) =
      .error "[ORPCTaggedError] Invalid error status code." :=
  ⟨rfl, rfl⟩

/-- C10 (amended): for every factory-created class whose default status is
absent or legal, no-argument construction never throws; the instance has no
data, is defined, and resolves its status through the protocol fallback for
the class's code (500 when the code is unrecognized and no default exists);
and projecting any registry whose tagged entries all satisfy this condition
cannot fail. -/
theorem C10_amended_noarg_construction (cls : TaggedErrorClass)
    (h : statusOkOpt cls.defaultStatus = true) :
    (∃ inst, construct cls {} = .ok inst ∧ inst.data = none ∧
      inst.defined = true ∧
      inst.status = fallbackORPCErrorStatus cls.code cls.defaultStatus ∧
      (cls.defaultStatus = none → commonDef cls.code = none → inst.status = 500)) ∧
    (∀ m : EffectErrorMap, wellStatused m = true →
      ∃ p, effectErrorMapToErrorMap (some m) = .ok p) := by
  constructor
  · obtain ⟨inst, hinst⟩ := construct_noargs_ok cls h
    obtain ⟨-, -, hstatus, -, hdata, hdef, -, -⟩ :=
      construct_ok_fields cls {} inst hinst
    refine ⟨inst, hinst, hdata, hdef, hstatus, ?_⟩
    intro hnone hcommon
    rw [hstatus, hnone]
    show fallbackORPCErrorStatus cls.code none = 500
    unfold fallbackORPCErrorStatus
    rw [hcommon]
    rfl
  · intro m hm
    unfold effectErrorMapToErrorMap
    exact project_go_ok_of_ws m hm []

/-- C10 (witness): the amended statement evaluated on clsUserNotFound (no
default status) and the concrete mixed registry. -/
theorem C10_amended_noarg_construction_witness :
    (∃ inst, construct clsUserNotFound {} = .ok inst ∧ inst.data = none ∧
      inst.defined = true ∧
      inst.status = fallbackORPCErrorStatus clsUserNotFound.code
        clsUserNotFound.defaultStatus ∧
      (clsUserNotFound.defaultStatus = none →
        commonDef clsUserNotFound.code = none → inst.status = 500)) ∧
    (∃ p, effectErrorMapToErrorMap (some mixedRegistry) = .ok p) := by
  have h := C10_amended_noarg_construction clsUserNotFound (by decide)
  exact ⟨h.1, h.2 mixedRegistry (by decide)⟩

end EffectOrpc
